import Mathlib

/-!
Shallow embedding of the device-command substrate of twistedActor
(python/twistedActor/device.py): the Device lifecycle state machine,
the ConnectDevice / DisconnectDevice orchestrators, the RunCmdList
command-chain runner and the DeviceCollection registry, together with
proofs of the specified properties.

The Connection (RO.Comm.TCPConnection) and the command classes
(twistedActor.command.UserCmd / DevCmd) are external to device.py; they
are modelled from the specification of their boundary (predicates
isConnected / isDone / isDisconnected / didFail / mayConnect on the
connection, and a Running to Done / Failed completion handle).
-/

namespace TwistedActor

/-- Device lifecycle states, from the class constants of
Device (device.py lines 63-68): Connected, Connecting, Disconnected,
Disconnecting, Failed. -/
inductive DevState where
  | Disconnected
  | Connecting
  | Connected
  | Disconnecting
  | Failed
  deriving DecidableEq, Repr

/-- Modelled from the spec: states of a CompletionHandle / DeviceExchange
(twistedActor.command is not part of the analysed sources): Running,
then terminal Done or Failed. -/
inductive CmdState where
  | Running
  | Done
  | Failed
  deriving DecidableEq, Repr

/-- Modelled from the spec: a CompletionHandle (UserCmd) or the
handle-like part of a DeviceExchange (DevCmd): a state plus an optional
human-readable failure message (textMsg). -/
structure UserCmd where
  state : CmdState
  textMsg : String
  deriving DecidableEq, Repr

/-- Modelled from the spec: a fresh, unresolved handle. -/
def UserCmd.new : UserCmd :=
  { state := CmdState.Running, textMsg := "" }

/-- Modelled from the spec: a resolved handle is terminal (isDone). -/
def UserCmd.isDone (c : UserCmd) : Bool :=
  c.state ≠ CmdState.Running

/-- Modelled from the spec: didFail predicate of a handle. -/
def UserCmd.didFail (c : UserCmd) : Bool :=
  c.state = CmdState.Failed

/-- Embedding of the guarded resolution pattern used throughout
device.py: if not cmd.isDone then cmd.setState(newState, textMsg); a
resolution without a textMsg keeps the old message. -/
def UserCmd.finishIfRunning (c : UserCmd) (st : CmdState) (msg : Option String) : UserCmd :=
  if c.isDone then c else { c with state := st, textMsg := msg.getD c.textMsg }

/-- Embedding of expandUserCmd (device.py lines 28-39): a missing
handle is replaced by a fresh one; an already-resolved handle is a
fatal contract violation (RuntimeError). -/
def expandUserCmd : Option UserCmd → Except String UserCmd
  | none => Except.ok UserCmd.new
  | some c =>
      if c.isDone then Except.error "userCmd already finished"
      else Except.ok c

/-- Modelled from the spec: observable states of the external
Connection (RO TCPConnection): Connecting, Connected, Disconnecting,
Disconnected, Failed. -/
inductive ConnState where
  | Connecting
  | Connected
  | Disconnecting
  | Disconnected
  | Failed
  deriving DecidableEq, Repr

/-- Modelled from the spec: Connection.isConnected predicate. -/
def ConnState.isConnected (c : ConnState) : Bool :=
  c = ConnState.Connected

/-- Modelled from the spec: Connection.isDisconnected, true when the
connection is fully disconnected (cleanly or by failure). -/
def ConnState.isDisconnected (c : ConnState) : Bool :=
  c = ConnState.Disconnected ∨ c = ConnState.Failed

/-- Modelled from the spec: Connection.isDone, true when fully
connected or fully disconnected. -/
def ConnState.isDone (c : ConnState) : Bool :=
  c = ConnState.Connected ∨ c = ConnState.Disconnected ∨ c = ConnState.Failed

/-- Modelled from the spec: Connection.didFail predicate. -/
def ConnState.didFail (c : ConnState) : Bool :=
  c = ConnState.Failed

/-- Modelled from the spec: Connection.mayConnect, true when the
connection is in a state from which a new connect may be started. -/
def ConnState.mayConnect (c : ConnState) : Bool :=
  c = ConnState.Disconnected ∨ c = ConnState.Failed

/-- Observable state of one Device (device.py lines 104-113): its
name, lifecycle state, the optional reason recorded by the last state
change, the re-entrancy guard flag set during connect and disconnect
orchestration, and a count of observer notifications issued by
the callback mixin (each doCallbacks call). -/
structure DevModel where
  name : String
  state : DevState
  reason : Option String
  ignoreConnCallback : Bool
  notifyCount : Nat
  deriving DecidableEq, Repr

/-- Embedding of Device.setState (device.py lines 145-157): ignore a
null state change; otherwise update the state field, record the reason
when one is given, and notify observers once. The unknown-state
RuntimeError cannot arise because DevState is exactly the allowed set. -/
def DevModel.setState (d : DevModel) (s : DevState) (reason : Option String) : DevModel :=
  if d.state = s then d
  else
    { d with
      state := s
      reason := match reason with
        | some r => some r
        | none => d.reason
      notifyCount := d.notifyCount + 1 }

/-- Embedding of the Device.didFail property (device.py line 205). -/
def DevModel.didFail (d : DevModel) : Bool :=
  d.state = DevState.Failed

/-- Embedding of the Device.isConnected property (device.py line 211). -/
def DevModel.isConnected (d : DevModel) : Bool :=
  d.state = DevState.Connected

/-- Embedding of the Device.isDisconnected property (device.py
line 217): state in (Disconnected, Failed). -/
def DevModel.isDisconnected (d : DevModel) : Bool :=
  d.state = DevState.Disconnected ∨ d.state = DevState.Failed

/-- Embedding of the Device.isDisconnecting property (device.py
line 223): state in (Disconnected, Failed, Disconnecting). -/
def DevModel.isDisconnecting (d : DevModel) : Bool :=
  d.state = DevState.Disconnected ∨ d.state = DevState.Failed ∨
    d.state = DevState.Disconnecting

/-- Embedding of Device repr (device.py line 284), the string used in
failure messages built with percent-s formatting of the device. -/
def DevModel.devStr (d : DevModel) : String :=
  "Device(" ++ d.name ++ ")"

/-- Embedding of Device connCallback (device.py lines 270-281): when
the guard is up, ignore the notification; otherwise mirror a
Connection transition to Disconnected or Disconnecting into the device
state with the matching socket reason. The argument is the connection
state observed at notification time. -/
def DevModel.connCallback (d : DevModel) (cs : ConnState) : DevModel :=
  if d.ignoreConnCallback then d
  else if cs = ConnState.Disconnected then
    if d.state ≠ DevState.Disconnected then
      d.setState DevState.Disconnected (some "socket disconnected")
    else d
  else if cs = ConnState.Disconnecting then
    if d.state ≠ DevState.Disconnecting then
      d.setState DevState.Disconnecting (some "socket disconnecting")
    else d
  else d

/-- Modelled from the spec: a DeviceExchange (DevCmd): the command
string, the completion state and the failure message. -/
structure DevCmd where
  cmdStr : String
  state : CmdState
  textMsg : String
  deriving DecidableEq, Repr

/-- Modelled from the spec: isDone predicate of a DeviceExchange. -/
def DevCmd.isDone (c : DevCmd) : Bool :=
  c.state ≠ CmdState.Running

/-- Modelled from the spec: didFail predicate of a DeviceExchange. -/
def DevCmd.didFail (c : DevCmd) : Bool :=
  c.state = CmdState.Failed

/-- Modelled from the spec: fullCmdStr, the formatted request string
owned by the exchange (the command module that formats it is outside
the analysed sources, so formatting is the identity here). -/
def DevCmd.fullCmdStr (c : DevCmd) : String :=
  c.cmdStr

/-- Embedding of Device.startCmd (device.py lines 225-252).
Arguments beyond the device name and command string describe the
external Connection at call time: whether it is connected, and whether
writeLine raises (some error text) or succeeds (none). The result is
the returned device command together with the lines actually written
to the Connection. -/
def startCmd (name : String) (connIsConnected : Bool) (writeErr : Option String)
    (cmdStr : String) : DevCmd × List String :=
  let devCmd : DevCmd := { cmdStr := cmdStr, state := CmdState.Running, textMsg := "" }
  if ¬ connIsConnected then
    ({ devCmd with
        state := CmdState.Failed
        textMsg := name ++ " " ++ cmdStr ++ " failed: not connected" }, [])
  else
    match writeErr with
    | none => (devCmd, [devCmd.fullCmdStr])
    | some e =>
        ({ devCmd with
            state := CmdState.Failed
            textMsg := name ++ " " ++ cmdStr ++ " failed: " ++ e }, [])

/-- Static per-run data of a RunCmdList (device.py lines 476-502): the
device name, the Connection behaviour seen by each startCmd, and the
oracle describing how the subclass reply handling eventually resolves
each exchange (some msg: resolved Failed with that message; none:
resolved Done). -/
structure RunCfg where
  name : String
  connIsConnected : Bool
  writeErr : Option String
  oracle : String → Option String

/-- One command of a RunCmdList run: start the exchange with
Device.startCmd; if it is not already resolved (write failure or
not-connected resolve it immediately), the subclass reply handling
resolves it per the oracle. Returns the resolved exchange and the
lines written. -/
def execCmd (cfg : RunCfg) (cmdStr : String) : DevCmd × List String :=
  let (devCmd, written) := startCmd cfg.name cfg.connIsConnected cfg.writeErr cmdStr
  if devCmd.isDone then (devCmd, written)
  else
    match cfg.oracle cmdStr with
    | some msg => ({ devCmd with state := CmdState.Failed, textMsg := msg }, written)
    | none => ({ devCmd with state := CmdState.Done }, written)

/-- Embedding of the RunCmdList drive loop (device.py lines 498-529):
start the first command synchronously; on each resolution
(cmdCallback), stop at the first failure, otherwise start the next
command; when the iterator is exhausted the last exchange is final.
Returns the final exchange and all lines written, in order. The empty
case is unreachable because the constructor rejects empty lists. -/
def runList (cfg : RunCfg) : List String → DevCmd × List String
  | [] => ({ cmdStr := "", state := CmdState.Running, textMsg := "" }, [])
  | c :: rest =>
      let (devCmd, written) := execCmd cfg c
      if devCmd.didFail then (devCmd, written)
      else if rest.isEmpty then (devCmd, written)
      else
        let (finalCmd, ws) := runList cfg rest
        (finalCmd, written ++ ws)

/-- Modelled from the spec: resolving a CompletionHandle; a handle is
terminal once resolved and resolving it again is a fatal contract
violation surfaced synchronously; a resolution without a textMsg keeps
the old message. -/
def UserCmd.resolve (c : UserCmd) (st : CmdState) (msg : Option String) :
    Except String UserCmd :=
  if c.isDone then Except.error "userCmd already finished"
  else Except.ok { c with state := st, textMsg := msg.getD c.textMsg }

/-- Embedding of RunCmdList.finish (device.py lines 531-549): resolve
the supplied tracking handle, if any, Failed with the final exchange
message on failure, else Done; device.py calls setState without an
isDone guard here, so a handle that is already resolved is the fatal
reuse of a resolved handle. -/
def RunCmdList.finish (userCmd : Option UserCmd) (devCmd : DevCmd) :
    Except String (Option UserCmd) :=
  match userCmd with
  | none => Except.ok none
  | some u =>
      if devCmd.didFail then
        (u.resolve CmdState.Failed (some devCmd.textMsg)).map some
      else (u.resolve CmdState.Done none).map some

/-- Result of a whole startCmdList run: the final exchange, every line
written to the Connection, and the tracking handle after finish. -/
structure RunListResult where
  finalCmd : DevCmd
  sent : List String
  userCmd : Option UserCmd
  deriving Repr

/-- Embedding of Device.startCmdList / the full RunCmdList run
(device.py lines 254-268 and 471-549): an empty command list is a
fatal configuration error (RuntimeError); otherwise the commands are
driven sequentially to the first failure and the tracking handle is
resolved by finish. -/
def startCmdList (cfg : RunCfg) (cmdList : List String) (userCmd : Option UserCmd) :
    Except String RunListResult :=
  if cmdList.isEmpty then Except.error "No commands"
  else
    let (finalCmd, sent) := runList cfg cmdList
    match RunCmdList.finish userCmd finalCmd with
    | Except.error e => Except.error e
    | Except.ok uc => Except.ok { finalCmd := finalCmd, sent := sent, userCmd := uc }

/-- Truthiness of an optional reason string, as Python evaluates the
expression reason or dflt: None and the empty string are falsy. -/
def reasonTruthy : Option String → Bool
  | none => false
  | some r => r ≠ ""

/-- Embedding of the Python idiom reason or dflt used in the finish
methods: keep a truthy reason, otherwise fall back to the default. -/
def reasonOr (reason : Option String) (dflt : String) : String :=
  match reason with
  | some r => if r = "" then dflt else r
  | none => dflt

/-- Observable state of one ConnectDevice orchestration (device.py
lines 287-371): the device, a snapshot of the Connection state, the
tracking handle, whether the timeout timer is live, whether the
orchestrator-local connection listener is subscribed, and which
requests have been issued to the Connection or the device. -/
structure ConnectSt where
  dev : DevModel
  conn : ConnState
  userCmd : UserCmd
  timerActive : Bool
  addedConnCallback : Bool
  connectRequested : Bool
  initRequested : Bool
  disconnectRequested : Bool
  deriving DecidableEq, Repr

/-- Embedding of ConnectDevice.finish (device.py lines 350-368):
always cancel the timer, lower the guard and drop the listener; on a
truthy reason, or whenever the Connection does not report connected,
set the device Failed with the reason (defaulting to unknown reason),
resolve the handle Failed with the failed-to-connect message, and
schedule a Connection disconnect; otherwise set Connected and resolve
the handle Done. -/
def ConnectDevice.finish (s : ConnectSt) (reason : Option String) : ConnectSt :=
  let s1 : ConnectSt :=
    { s with
        timerActive := false
        addedConnCallback := false
        dev := { s.dev with ignoreConnCallback := false } }
  if reasonTruthy reason ∨ ¬ s1.conn.isConnected then
    let r := reasonOr reason "unknown reason"
    { s1 with
        dev := s1.dev.setState DevState.Failed (some r)
        userCmd := s1.userCmd.finishIfRunning CmdState.Failed
          (some (s1.dev.devStr ++ " failed to connect: " ++ r))
        disconnectRequested := true }
  else
    { s1 with
        dev := s1.dev.setState DevState.Connected none
        userCmd := s1.userCmd.finishIfRunning CmdState.Done none }

/-- Embedding of ConnectDevice init, lines 297-324: expand the handle
(fatal if already resolved); if the device and its Connection are both
already connected, finish at once with no reason; otherwise raise the
guard, set Connecting, subscribe the listener and either request a
Connection connect (when the Connection may connect) or, when a
connect is already underway, start the timeout timer if the time
limit is nonzero. -/
def ConnectDevice.start (dev : DevModel) (conn : ConnState) (userCmd0 : Option UserCmd)
    (timeLim : Nat) : Except String ConnectSt :=
  match expandUserCmd userCmd0 with
  | Except.error e => Except.error e
  | Except.ok cmd =>
      let s : ConnectSt :=
        { dev := dev, conn := conn, userCmd := cmd, timerActive := false,
          addedConnCallback := false, connectRequested := false,
          initRequested := false, disconnectRequested := false }
      if dev.isConnected && conn.isConnected then
        Except.ok (ConnectDevice.finish s none)
      else
        let s1 : ConnectSt :=
          { s with dev := { s.dev with ignoreConnCallback := true } }
        let s2 : ConnectSt := { s1 with dev := s1.dev.setState DevState.Connecting none }
        let s3 : ConnectSt := { s2 with addedConnCallback := true }
        if conn.mayConnect then Except.ok { s3 with connectRequested := true }
        else if timeLim ≠ 0 then Except.ok { s3 with timerActive := true }
        else Except.ok s3

/-- Embedding of ConnectDevice.connCallback (device.py lines 339-348):
when the Connection reports connected, cancel the timer and start the
device init; when it reports failed, cancel the timer and finish with
reason connection failed; otherwise ignore the notification. -/
def ConnectDevice.connCallback (s : ConnectSt) : ConnectSt :=
  if s.conn.isConnected then
    { s with timerActive := false, initRequested := true }
  else if s.conn.didFail then
    ConnectDevice.finish { s with timerActive := false } (some "connection failed")
  else s

/-- Embedding of ConnectDevice.initCallback (device.py lines 326-337):
ignore while the init handle is unresolved; then finish with the init
failure message (or a canned unknown-reasons text) on failure, and
with no reason on success. -/
def ConnectDevice.initCallback (s : ConnectSt) (initCmd : UserCmd) : ConnectSt :=
  if ¬ initCmd.isDone then s
  else if initCmd.didFail then
    ConnectDevice.finish s
      (some (if initCmd.textMsg = "" then "init command failed for unknown reasons"
             else initCmd.textMsg))
  else ConnectDevice.finish s none

/-- Modelled from the spec: the short label of a Connection state,
used in the skipped-initialization warning text. -/
def connStateStr : ConnState → String
  | ConnState.Connecting => "Connecting"
  | ConnState.Connected => "Connected"
  | ConnState.Disconnecting => "Disconnecting"
  | ConnState.Disconnected => "Disconnected"
  | ConnState.Failed => "Failed"

/-- Observable state of one DisconnectDevice orchestration (device.py
lines 374-468): the device, a snapshot of the Connection state, the
tracking handle, the timer and listener flags, the requests issued,
the warnings written to users, and how many times the device cleanup
hook has run. -/
structure DisconnectSt where
  dev : DevModel
  conn : ConnState
  userCmd : UserCmd
  timerActive : Bool
  addedConnCallback : Bool
  disconnectRequested : Bool
  initRequested : Bool
  warnings : List String
  cleanupCount : Nat
  deriving DecidableEq, Repr

/-- Embedding of DisconnectDevice.finish (device.py lines 446-465):
always cancel the timer, lower the guard and drop the listener; on a
truthy reason, or whenever the Connection is not done or not fully
disconnected, set the device Failed with the reason and resolve the
handle Failed with the failed-to-disconnect message; otherwise set
Disconnected (when not already) and resolve the handle Done; in every
case invoke the device cleanup hook once at the end. -/
def DisconnectDevice.finish (s : DisconnectSt) (reason : Option String) : DisconnectSt :=
  let s1 : DisconnectSt :=
    { s with
        timerActive := false
        addedConnCallback := false
        dev := { s.dev with ignoreConnCallback := false } }
  let s2 : DisconnectSt :=
    if reasonTruthy reason ∨ ¬ s1.conn.isDone ∨ ¬ s1.conn.isDisconnected then
      let r := reasonOr reason "unknown reasons"
      { s1 with
          dev := s1.dev.setState DevState.Failed (some r)
          userCmd := s1.userCmd.finishIfRunning CmdState.Failed
            (some (s1.dev.devStr ++ " failed to disconnect: " ++ r)) }
    else
      { s1 with
          dev := if s1.dev.state ≠ DevState.Disconnected then
              s1.dev.setState DevState.Disconnected none
            else s1.dev
          userCmd := s1.userCmd.finishIfRunning CmdState.Done none }
  { s2 with cleanupCount := s2.cleanupCount + 1 }

/-- Embedding of DisconnectDevice.startDisconnect (device.py lines
414-427) together with the single awaited completion event: when the
Connection is already done and not connected, finish on a zero-delay
timer with no reason; otherwise start the timeout timer when the time
limit is nonzero, subscribe the listener and request a Connection
disconnect, after which either the timer fires (finish with the
timed-out reason, possible only when a timer was started) or the
listener sees the Connection done and finishes with no reason. The
connAtTeardown and connFinal arguments are the Connection state when
teardown starts and when finish runs. -/
def DisconnectDevice.startDisconnect (timeLim : Nat) (connAtTeardown connFinal : ConnState)
    (timedOut : Bool) (s : DisconnectSt) : DisconnectSt :=
  let s1 : DisconnectSt := { s with conn := connAtTeardown }
  if s1.conn.isDone && ¬ s1.conn.isConnected then
    DisconnectDevice.finish { s1 with conn := connFinal } none
  else
    let s2 : DisconnectSt :=
      { s1 with
          timerActive := timeLim ≠ 0
          addedConnCallback := true
          disconnectRequested := true }
    if timedOut && timeLim ≠ 0 then
      DisconnectDevice.finish { s2 with conn := connFinal }
        (some "timed out waiting for disconnection")
    else
      DisconnectDevice.finish { s2 with conn := connFinal } none

/-- Embedding of one whole disconnect orchestration, DisconnectDevice
lines 384-412 followed by initCallback (lines 429-438) and teardown:
when the Connection is already fully disconnected at the call,
set Disconnected (when not already, with the socket-disconnected
reason), resolve the handle Done and stop; otherwise raise the guard,
set Disconnecting (when not Disconnected), then either run init as a
clean-shutdown hook (warning on its failure, described by initFail)
when the Connection is connected, or warn that initialization was
skipped, and in both cases proceed to teardown. -/
def disconnectRun (dev : DevModel) (connAtCall : ConnState) (userCmd : UserCmd)
    (timeLim : Nat) (initFail : Option String) (connAtTeardown connFinal : ConnState)
    (timedOut : Bool) : DisconnectSt :=
  let s : DisconnectSt :=
    { dev := dev, conn := connAtCall, userCmd := userCmd, timerActive := false,
      addedConnCallback := false, disconnectRequested := false, initRequested := false,
      warnings := [], cleanupCount := 0 }
  if connAtCall.isDisconnected then
    { s with
        dev := if dev.state ≠ DevState.Disconnected then
            dev.setState DevState.Disconnected (some "socket disconnected")
          else dev
        userCmd := userCmd.finishIfRunning CmdState.Done none }
  else
    let s1 : DisconnectSt := { s with dev := { s.dev with ignoreConnCallback := true } }
    let s2 : DisconnectSt :=
      if s1.dev.state ≠ DevState.Disconnected then
        { s1 with dev := s1.dev.setState DevState.Disconnecting none }
      else s1
    if connAtCall.isConnected then
      let s3 : DisconnectSt := { s2 with initRequested := true }
      let s4 : DisconnectSt :=
        match initFail with
        | some msg =>
            { s3 with warnings :=
                s3.warnings ++ [s3.dev.name ++ " initialization failed: " ++ msg] }
        | none => s3
      DisconnectDevice.startDisconnect timeLim connAtTeardown connFinal timedOut s4
    else
      let s3 : DisconnectSt :=
        { s2 with warnings := s2.warnings ++
            [s2.dev.name ++ " connection state=" ++ connStateStr connAtCall ++
              "; cannot initialize before disconnecting"] }
      DisconnectDevice.startDisconnect timeLim connAtTeardown connFinal timedOut s3

/-- Embedding of Device.disconnect (device.py lines 128-136 and the
DisconnectDevice constructor): expand the handle (fatal if already
resolved) and run the disconnect orchestration. -/
def DisconnectDevice.run (dev : DevModel) (connAtCall : ConnState)
    (userCmd0 : Option UserCmd) (timeLim : Nat) (initFail : Option String)
    (connAtTeardown connFinal : ConnState) (timedOut : Bool) :
    Except String DisconnectSt :=
  match expandUserCmd userCmd0 with
  | Except.error e => Except.error e
  | Except.ok cmd =>
      Except.ok (disconnectRun dev connAtCall cmd timeLim initFail
        connAtTeardown connFinal timedOut)

/-- One entry of the device list handed to DeviceCollection: the
device name and the identity of its Connection (Python id(dev.conn)),
which keys the reverse-lookup index. -/
structure DevSpec where
  name : String
  connId : Nat
  deriving DecidableEq, Repr

/-- Embedding of the construction loop of DeviceCollection
(device.py lines 727-744), carrying the names already installed as
attributes and the connection identities already indexed: reject a
name starting with the reserved underscore, a name colliding with an
existing attribute (a registry-reserved accessor or a previously added
device name), and a connection identity already in use; otherwise
install the device and continue. -/
def buildLoop (reserved : List String) :
    List DevSpec → List String → List Nat → Except String (List String × List Nat)
  | [], names, conns => Except.ok (names, conns)
  | d :: rest, names, conns =>
      if d.name.startsWith "_" then
        Except.error ("Illegal device name " ++ d.name ++ "; must not start with _")
      else if d.name ∈ reserved ∨ d.name ∈ names then
        Except.error ("Device name: " ++ d.name ++
          " matches existing device name or DeviceCollection attribute")
      else if d.connId ∈ conns then
        Except.error "A device already exists that uses this connection"
      else buildLoop reserved rest (names ++ [d.name]) (conns ++ [d.connId])

/-- Embedding of DeviceCollection construction (device.py lines
715-744): run the loop starting from the registry-reserved accessor
names and empty indexes. -/
def DeviceCollection.build (reserved : List String) (devs : List DevSpec) :
    Except String (List String × List Nat) :=
  buildLoop reserved devs [] []

/-- Specification-side validity of a device list for a registry: no
name uses the reserved underscore, collides with a reserved accessor
name or repeats, and no two devices share one connection identity. -/
def collectionOk (reserved : List String) (devs : List DevSpec) : Prop :=
  (∀ d ∈ devs, ¬ d.name.startsWith "_" ∧ d.name ∉ reserved) ∧
    (devs.map DevSpec.name).Nodup ∧ (devs.map DevSpec.connId).Nodup

/-- Events of one in-flight ConnectDevice orchestration, for the
timer-cancellation analysis: the Connection listener reporting
connected or failed (connCallback, lines 339-348), the device init
resolving (initCallback, lines 326-337), and the timeout timer
firing (line 324). -/
inductive CEvent where
  | connConnected
  | connFailed
  | initDone
  | timerFire
  deriving DecidableEq, Repr

/-- Control state of one in-flight ConnectDevice orchestration:
whether the timeout timer is live, whether the orchestrator listener
is still subscribed, whether init has been started and resolved, and
which path (init completion, timer, transport failure) has run
finish, with a count of finish executions. -/
structure EvSt where
  timerActive : Bool
  subscribed : Bool
  initStarted : Bool
  initResolved : Bool
  finishCount : Nat
  finByInit : Bool
  finByTimer : Bool
  finByConnFail : Bool
  deriving DecidableEq, Repr

/-- Shared effect of ConnectDevice.finish (lines 350-358) on the
control state: the timer is cancelled, the listener unsubscribed and
one more finish has run. -/
def EvSt.finishEv (s : EvSt) : EvSt :=
  { s with timerActive := false, subscribed := false, finishCount := s.finishCount + 1 }

/-- Enabling conditions of the events: the listener events need the
subscription (removed by finish), init can resolve only once after
being started, and the timer can fire only while live. -/
def evEnabled (s : EvSt) : CEvent → Bool
  | CEvent.connConnected => s.subscribed
  | CEvent.connFailed => s.subscribed
  | CEvent.initDone => s.initStarted && ¬ s.initResolved
  | CEvent.timerFire => s.timerActive

/-- Effect of each event, following device.py: a connected
notification cancels the timer and starts init (lines 342-345); a
failed notification cancels the timer and runs finish (lines
346-348); init resolution runs finish (lines 330-337); the timer
firing consumes the timer and runs finish with the timed-out reason
(line 324). -/
def evStep (s : EvSt) : CEvent → EvSt
  | CEvent.connConnected => { s with timerActive := false, initStarted := true }
  | CEvent.connFailed => { s.finishEv with finByConnFail := true }
  | CEvent.initDone => { s.finishEv with initResolved := true, finByInit := true }
  | CEvent.timerFire => { s.finishEv with finByTimer := true }

/-- Run a sequence of events from a control state. -/
def evRun (s : EvSt) : List CEvent → EvSt
  | [] => s
  | e :: es => evRun (evStep s e) es

/-- A sequence of events is a valid schedule when every event is
enabled in the state where it occurs. -/
def evValid (s : EvSt) : List CEvent → Bool
  | [] => true
  | e :: es => evEnabled s e && evValid (evStep s e) es

/-- Control state right after a ConnectDevice starts a nonzero
timeout timer (device.py lines 315-324): timer live, listener
subscribed, init not yet started, nothing finished. -/
def connectEvInit : EvSt :=
  { timerActive := true, subscribed := true, initStarted := false, initResolved := false,
    finishCount := 0, finByInit := false, finByTimer := false, finByConnFail := false }

/-- Whether an Except result is a success. -/
def exceptOk {α β : Type} : Except α β → Bool
  | Except.ok _ => true
  | Except.error _ => false

/-- C6: for every device and every state in the allowed set, setState
with the current state is a silent no-op (state, reason and observer
notifications unchanged), a second setState with the same state right
after a first is always a no-op, and a genuine transition notifies
exactly once, so two consecutive calls with one state produce exactly
one notification. -/
theorem setState_null_change_silent (d : DevModel) (s : DevState) (r r' : Option String) :
    (d.state = s → d.setState s r = d) ∧
    (d.setState s r).setState s r' = d.setState s r ∧
    (d.state ≠ s → (d.setState s r).notifyCount = d.notifyCount + 1) := by
  unfold DevModel.setState
  by_cases h : d.state = s <;> simp [h]

/-- Witness for setState_null_change_silent at a concrete device. -/
theorem setState_null_change_silent_witness :
    ({ name := "dev", state := DevState.Connected, reason := some "r",
       ignoreConnCallback := false, notifyCount := 3 } : DevModel).setState
        DevState.Connected none =
      { name := "dev", state := DevState.Connected, reason := some "r",
        ignoreConnCallback := false, notifyCount := 3 } ∧
    (({ name := "dev", state := DevState.Disconnected, reason := none,
        ignoreConnCallback := false, notifyCount := 0 } : DevModel).setState
          DevState.Connected none).notifyCount = 1 :=
  ⟨(setState_null_change_silent
      { name := "dev", state := DevState.Connected, reason := some "r",
        ignoreConnCallback := false, notifyCount := 3 }
      DevState.Connected none none).1 rfl,
   (setState_null_change_silent
      { name := "dev", state := DevState.Disconnected, reason := none,
        ignoreConnCallback := false, notifyCount := 0 }
      DevState.Connected none none).2.2 (by decide)⟩

/-- C10: isDisconnected holds exactly on the Disconnected and Failed
states, isDisconnecting exactly on Disconnected, Failed and
Disconnecting, and in particular a device whose last attempt Failed
counts as disconnected at the public interface. -/
theorem isDisconnected_includes_failed (d : DevModel) :
    (d.isDisconnected = true ↔
      (d.state = DevState.Disconnected ∨ d.state = DevState.Failed)) ∧
    (d.isDisconnecting = true ↔
      (d.state = DevState.Disconnected ∨ d.state = DevState.Failed ∨
        d.state = DevState.Disconnecting)) ∧
    (d.state = DevState.Failed → d.isDisconnected = true) := by
  simp [DevModel.isDisconnected, DevModel.isDisconnecting]
  tauto

/-- Witness for isDisconnected_includes_failed at a Failed device. -/
theorem isDisconnected_includes_failed_witness :
    ({ name := "dev", state := DevState.Failed, reason := none,
       ignoreConnCallback := false, notifyCount := 0 } : DevModel).isDisconnected = true :=
  (isDisconnected_includes_failed
    { name := "dev", state := DevState.Failed, reason := none,
      ignoreConnCallback := false, notifyCount := 0 }).2.2 rfl

/-- C9: while the re-entrancy guard is up the device connection-state
callback ignores every notification; when unguarded, a Connection
transition to Disconnected or Disconnecting moves the device to the
matching state with the matching socket reason; and no connection
notification alone ever moves the device into Connected. -/
theorem connCallback_guard_and_mirror (d : DevModel) (cs : ConnState) :
    (d.ignoreConnCallback = true → d.connCallback cs = d) ∧
    (d.ignoreConnCallback = false → cs = ConnState.Disconnected →
      d.state ≠ DevState.Disconnected →
      (d.connCallback cs).state = DevState.Disconnected ∧
        (d.connCallback cs).reason = some "socket disconnected") ∧
    (d.ignoreConnCallback = false → cs = ConnState.Disconnecting →
      d.state ≠ DevState.Disconnecting →
      (d.connCallback cs).state = DevState.Disconnecting ∧
        (d.connCallback cs).reason = some "socket disconnecting") ∧
    ((d.connCallback cs).state = DevState.Connected → d.state = DevState.Connected) := by
  unfold DevModel.connCallback DevModel.setState
  by_cases hg : d.ignoreConnCallback <;> cases cs <;> simp [hg] <;>
    by_cases hs : d.state = DevState.Disconnected <;>
      by_cases hs2 : d.state = DevState.Disconnecting <;> simp_all

/-- Witness for connCallback_guard_and_mirror at concrete inputs. -/
theorem connCallback_guard_and_mirror_witness :
    (({ name := "dev", state := DevState.Connected, reason := none,
        ignoreConnCallback := true, notifyCount := 0 } : DevModel).connCallback
        ConnState.Disconnected =
      { name := "dev", state := DevState.Connected, reason := none,
        ignoreConnCallback := true, notifyCount := 0 }) ∧
    (({ name := "dev", state := DevState.Connected, reason := none,
        ignoreConnCallback := false, notifyCount := 0 } : DevModel).connCallback
        ConnState.Disconnected).state = DevState.Disconnected :=
  ⟨(connCallback_guard_and_mirror
      { name := "dev", state := DevState.Connected, reason := none,
        ignoreConnCallback := true, notifyCount := 0 } ConnState.Disconnected).1 rfl,
   ((connCallback_guard_and_mirror
      { name := "dev", state := DevState.Connected, reason := none,
        ignoreConnCallback := false, notifyCount := 0 } ConnState.Disconnected).2.1
      rfl rfl (by decide)).1⟩

/-- C7: startCmd on a device whose Connection is not connected returns
an exchange already resolved Failed with the not-connected message and
writes nothing to the Connection; startCmd on a connected Connection
whose writeLine fails returns an exchange resolved Failed carrying the
error text instead of raising. -/
theorem startCmd_failure_paths (name cmdStr e : String) (writeErr : Option String) :
    startCmd name false writeErr cmdStr =
      ({ cmdStr := cmdStr, state := CmdState.Failed,
         textMsg := name ++ " " ++ cmdStr ++ " failed: not connected" }, []) ∧
    startCmd name true (some e) cmdStr =
      ({ cmdStr := cmdStr, state := CmdState.Failed,
         textMsg := name ++ " " ++ cmdStr ++ " failed: " ++ e }, []) :=
  ⟨rfl, rfl⟩

/-- C4: connect on a device already Connected whose Connection reports
connected resolves the returned handle Done immediately and has no
other side effect: the device record (state and guard included) is
unchanged and no connect request, init request, timer, listener
subscription or disconnect request is produced. -/
theorem connect_already_connected (dev : DevModel) (conn : ConnState) (u : UserCmd)
    (timeLim : Nat) (hs : dev.state = DevState.Connected)
    (hg : dev.ignoreConnCallback = false) (hc : conn.isConnected = true)
    (hu : u.state = CmdState.Running) :
    ConnectDevice.start dev conn (some u) timeLim =
      Except.ok
        { dev := dev, conn := conn, userCmd := { u with state := CmdState.Done },
          timerActive := false, addedConnCallback := false, connectRequested := false,
          initRequested := false, disconnectRequested := false } := by
  cases dev
  cases u
  simp_all [ConnectDevice.start, expandUserCmd, UserCmd.isDone, DevModel.isConnected,
    ConnectDevice.finish, reasonTruthy, DevModel.setState, UserCmd.finishIfRunning]

/-- Witness for connect_already_connected at concrete inputs. -/
theorem connect_already_connected_witness :
    ConnectDevice.start
      { name := "dev", state := DevState.Connected, reason := none,
        ignoreConnCallback := false, notifyCount := 0 }
      ConnState.Connected (some UserCmd.new) 5 =
    Except.ok
      { dev := { name := "dev", state := DevState.Connected, reason := none,
                 ignoreConnCallback := false, notifyCount := 0 },
        conn := ConnState.Connected,
        userCmd := { UserCmd.new with state := CmdState.Done },
        timerActive := false, addedConnCallback := false, connectRequested := false,
        initRequested := false, disconnectRequested := false } :=
  connect_already_connected
    { name := "dev", state := DevState.Connected, reason := none,
      ignoreConnCallback := false, notifyCount := 0 }
    ConnState.Connected UserCmd.new 5 rfl rfl rfl rfl

/-- C2: a connect finalize with a nonempty failure reason sets the
device Failed recording that reason (the device not being Failed
already, as it never is while a connect orchestration is in flight),
resolves a not-yet-resolved tracking handle Failed with the
failed-to-connect message naming the device and the reason, and issues
a disconnect request to the Connection. -/
theorem connect_finish_failure (s : ConnectSt) (r : String) (hr : r ≠ "")
    (hst : s.dev.state ≠ DevState.Failed) :
    (ConnectDevice.finish s (some r)).dev.state = DevState.Failed ∧
    (ConnectDevice.finish s (some r)).dev.reason = some r ∧
    (s.userCmd.isDone = false →
      (ConnectDevice.finish s (some r)).userCmd =
        { s.userCmd with
            state := CmdState.Failed
            textMsg := s.dev.devStr ++ " failed to connect: " ++ r }) ∧
    (ConnectDevice.finish s (some r)).disconnectRequested = true := by
  unfold ConnectDevice.finish
  simp [reasonTruthy, reasonOr, hr, DevModel.setState, UserCmd.finishIfRunning,
    DevModel.devStr, hst]
  intro h1 h2
  rw [h1] at h2
  cases h2

/-- Witness for connect_finish_failure at a concrete in-flight
connect state. -/
theorem connect_finish_failure_witness :
    (ConnectDevice.finish
      { dev := { name := "dev", state := DevState.Connecting, reason := none,
                 ignoreConnCallback := true, notifyCount := 1 },
        conn := ConnState.Failed, userCmd := UserCmd.new, timerActive := true,
        addedConnCallback := true, connectRequested := true, initRequested := false,
        disconnectRequested := false }
      (some "connection failed")).dev.state = DevState.Failed ∧
    (ConnectDevice.finish
      { dev := { name := "dev", state := DevState.Connecting, reason := none,
                 ignoreConnCallback := true, notifyCount := 1 },
        conn := ConnState.Failed, userCmd := UserCmd.new, timerActive := true,
        addedConnCallback := true, connectRequested := true, initRequested := false,
        disconnectRequested := false }
      (some "connection failed")).disconnectRequested = true := by
  have h := connect_finish_failure
    { dev := { name := "dev", state := DevState.Connecting, reason := none,
               ignoreConnCallback := true, notifyCount := 1 },
      conn := ConnState.Failed, userCmd := UserCmd.new, timerActive := true,
      addedConnCallback := true, connectRequested := true, initRequested := false,
      disconnectRequested := false }
    "connection failed" (by decide) (by decide)
  exact ⟨h.1, h.2.2.2⟩

/-- Every execution of DisconnectDevice.finish runs the device cleanup
hook exactly once, on the success, failure and timeout branches alike. -/
theorem disconnectFinish_cleanup_succ (s : DisconnectSt) (reason : Option String) :
    (DisconnectDevice.finish s reason).cleanupCount = s.cleanupCount + 1 := by
  simp [DisconnectDevice.finish, apply_ite DisconnectSt.cleanupCount]

/-- Every teardown started by DisconnectDevice.startDisconnect ends in
finish and hence runs cleanup exactly once. -/
theorem startDisconnect_cleanup_succ (timeLim : Nat) (connAtTeardown connFinal : ConnState)
    (timedOut : Bool) (s : DisconnectSt) :
    (DisconnectDevice.startDisconnect timeLim connAtTeardown connFinal timedOut
      s).cleanupCount = s.cleanupCount + 1 := by
  simp [DisconnectDevice.startDisconnect, disconnectFinish_cleanup_succ,
    apply_ite DisconnectSt.cleanupCount]

/-- C1 counterexample: a Device.disconnect call made while the
Connection is already fully disconnected resolves the handle Done but
never invokes the device cleanup hook, contradicting the claim that
cleanup runs exactly once on that path too. -/
theorem disconnect_already_disconnected_skips_cleanup :
    (DisconnectDevice.run
      { name := "dev", state := DevState.Connected, reason := none,
        ignoreConnCallback := false, notifyCount := 0 }
      ConnState.Disconnected none 5 none ConnState.Disconnected ConnState.Disconnected
      false).map (fun r => (r.cleanupCount, r.userCmd.state)) =
    Except.ok (0, CmdState.Done) := rfl

/-- C1 amended: the device cleanup hook is invoked exactly once by the
end of every disconnect whose Connection is not already fully
disconnected at the time of the call (every teardown path, failure and
timeout paths included), and is not invoked at all when the Connection
is already fully disconnected at the time of the call. -/
theorem disconnect_cleanup_exactly_once_on_teardown
    (dev : DevModel) (connAtCall : ConnState) (u : UserCmd) (timeLim : Nat)
    (initFail : Option String) (connAtTeardown connFinal : ConnState) (timedOut : Bool) :
    (connAtCall.isDisconnected = false →
      (disconnectRun dev connAtCall u timeLim initFail connAtTeardown connFinal
        timedOut).cleanupCount = 1) ∧
    (connAtCall.isDisconnected = true →
      (disconnectRun dev connAtCall u timeLim initFail connAtTeardown connFinal
        timedOut).cleanupCount = 0) := by
  constructor
  · intro h
    unfold disconnectRun
    cases initFail <;>
      simp [h, startDisconnect_cleanup_succ, apply_ite DisconnectSt.cleanupCount]
  · intro h
    unfold disconnectRun
    simp [h]

/-- Witness for disconnect_cleanup_exactly_once_on_teardown at
concrete teardown and already-disconnected runs. -/
theorem disconnect_cleanup_exactly_once_witness :
    (disconnectRun
      { name := "dev", state := DevState.Connected, reason := none,
        ignoreConnCallback := false, notifyCount := 0 }
      ConnState.Connected UserCmd.new 5 none ConnState.Disconnecting
      ConnState.Disconnected false).cleanupCount = 1 ∧
    (disconnectRun
      { name := "dev", state := DevState.Failed, reason := none,
        ignoreConnCallback := false, notifyCount := 0 }
      ConnState.Failed UserCmd.new 5 none ConnState.Failed ConnState.Failed
      false).cleanupCount = 0 :=
  ⟨(disconnect_cleanup_exactly_once_on_teardown
      { name := "dev", state := DevState.Connected, reason := none,
        ignoreConnCallback := false, notifyCount := 0 }
      ConnState.Connected UserCmd.new 5 none ConnState.Disconnecting
      ConnState.Disconnected false).1 rfl,
   (disconnect_cleanup_exactly_once_on_teardown
      { name := "dev", state := DevState.Failed, reason := none,
        ignoreConnCallback := false, notifyCount := 0 }
      ConnState.Failed UserCmd.new 5 none ConnState.Failed ConnState.Failed
      false).2 rfl⟩

/-- On a connected device with a working transport, a command list
whose commands succeed up to a first failing command sends exactly the
commands up to and including the failing one, and the failing exchange
(with its resolution message) is the final exchange. -/
theorem runList_stops_at_failure (cfg : RunCfg) (hconn : cfg.connIsConnected = true)
    (hw : cfg.writeErr = none) (pre : List String) (failC : String) (post : List String)
    (msg : String) (hpre : ∀ c ∈ pre, cfg.oracle c = none)
    (hf : cfg.oracle failC = some msg) :
    runList cfg (pre ++ failC :: post) =
      ({ cmdStr := failC, state := CmdState.Failed, textMsg := msg }, pre ++ [failC]) := by
  induction pre with
  | nil =>
      simp [runList, execCmd, startCmd, hconn, hw, hf, DevCmd.isDone, DevCmd.didFail,
        DevCmd.fullCmdStr]
  | cons p pre ih =>
      have hp : cfg.oracle p = none := hpre p (by simp)
      have hpre2 : ∀ c ∈ pre, cfg.oracle c = none := fun c hc => hpre c (by simp [hc])
      simp [runList, execCmd, startCmd, hconn, hw, hp, DevCmd.isDone, DevCmd.didFail,
        DevCmd.fullCmdStr, ih hpre2]

/-- C3: for a command list run on a connected device, when every
command before some command fails resolves Done and that command
resolves Failed, exactly the commands up to and including the failing
one are written to the Connection, later commands are never sent, and
the supplied tracking handle (unresolved, as any resolved handle is a
fatal contract violation) resolves Failed carrying the failing
exchange message. -/
theorem cmdList_stops_at_first_failure (name : String) (oracle : String → Option String)
    (pre : List String) (failC : String) (post : List String) (msg : String) (u : UserCmd)
    (hu : u.state = CmdState.Running)
    (hpre : ∀ c ∈ pre, oracle c = none) (hf : oracle failC = some msg) :
    ∃ r : RunListResult,
      startCmdList
        { name := name, connIsConnected := true, writeErr := none, oracle := oracle }
        (pre ++ failC :: post) (some u) = Except.ok r ∧
      r.sent = pre ++ [failC] ∧
      r.userCmd = some { u with state := CmdState.Failed, textMsg := msg } := by
  have hrun := runList_stops_at_failure
    { name := name, connIsConnected := true, writeErr := none, oracle := oracle }
    rfl rfl pre failC post msg hpre hf
  refine ⟨{ finalCmd := { cmdStr := failC, state := CmdState.Failed, textMsg := msg },
            sent := pre ++ [failC],
            userCmd := some { u with state := CmdState.Failed, textMsg := msg } },
          ?_, rfl, rfl⟩
  simp [startCmdList, hrun, RunCmdList.finish, DevCmd.didFail, UserCmd.resolve,
    UserCmd.isDone, hu, Except.map]

/-- Witness for cmdList_stops_at_first_failure: running a, b, c where
b fails sends exactly a then b, never c, and the handle carries the
failure message of b. -/
theorem cmdList_stops_at_first_failure_witness :
    ∃ r : RunListResult,
      startCmdList
        { name := "dev", connIsConnected := true, writeErr := none,
          oracle := fun c => if c = "b" then some "b failed" else none }
        (["a"] ++ "b" :: ["c"]) (some UserCmd.new) = Except.ok r ∧
      r.sent = ["a"] ++ ["b"] ∧
      r.userCmd = some { UserCmd.new with state := CmdState.Failed, textMsg := "b failed" } :=
  cmdList_stops_at_first_failure "dev"
    (fun c => if c = "b" then some "b failed" else none)
    ["a"] "b" ["c"] "b failed" UserCmd.new rfl (by decide) (by decide)

/-- Every event of a connect orchestration leaves the timeout timer
cancelled: the listener cancels it on connected and on failed, finish
cancels it, and firing consumes it; nothing ever restarts it. -/
theorem evStep_timer_false (s : EvSt) (e : CEvent) : (evStep s e).timerActive = false := by
  cases e <;> simp [evStep, EvSt.finishEv]

/-- In a valid schedule started with the timer already cancelled the
timer-fire event can never occur. -/
theorem timerFire_not_in_valid_inactive (es : List CEvent) :
    ∀ s : EvSt, s.timerActive = false → evValid s es = true → CEvent.timerFire ∉ es := by
  induction es with
  | nil => intro s _ _; simp
  | cons e es ih =>
      intro s h hv
      simp only [evValid, Bool.and_eq_true] at hv
      simp only [List.mem_cons, not_or]
      constructor
      · rintro rfl
        have : s.timerActive = true := hv.1
        rw [h] at this
        cases this
      · exact ih (evStep s e) (evStep_timer_false s e) hv.2

/-- Invariant of the connect control state: once finish has run from
the timer path the listener is gone and init never started (so the
init path can never also run finish), and while the timer is live
neither init nor the init-path finish has happened. -/
def evInv (s : EvSt) : Prop :=
  (s.finByTimer = true → s.subscribed = false ∧ s.initStarted = false ∧
    s.finByInit = false) ∧
  (s.timerActive = true → s.initStarted = false ∧ s.finByInit = false)

/-- The invariant is preserved by every enabled event. -/
theorem evInv_step (s : EvSt) (e : CEvent) (hI : evInv s) (he : evEnabled s e = true) :
    evInv (evStep s e) := by
  cases e <;> simp_all [evInv, evEnabled, evStep, EvSt.finishEv]

/-- The invariant holds after any valid schedule from a state
satisfying it. -/
theorem evInv_run (es : List CEvent) : ∀ s : EvSt, evInv s → evValid s es = true →
    evInv (evRun s es) := by
  induction es with
  | nil => intro s h _; exact h
  | cons e es ih =>
      intro s h hv
      simp only [evValid, Bool.and_eq_true] at hv
      exact ih (evStep s e) (evInv_step s e h hv.1) hv.2

/-- C5: for a connect run with a live timeout timer, in every valid
schedule of events finish never runs from both the init-completion
path and the timer path; the transport-connected and transport-failed
notifications cancel the timer the instant they are handled; and the
timer can never fire after any other event has occurred (so it never
fires a spurious failure after the operation finalized). -/
theorem connect_timer_never_fires_late (es : List CEvent)
    (hv : evValid connectEvInit es = true) :
    ¬((evRun connectEvInit es).finByTimer = true ∧
      (evRun connectEvInit es).finByInit = true) ∧
    (∀ s : EvSt, (evStep s CEvent.connConnected).timerActive = false ∧
      (evStep s CEvent.connFailed).timerActive = false) ∧
    (∀ (e : CEvent) (es2 : List CEvent), es = e :: es2 → CEvent.timerFire ∉ es2) := by
  refine ⟨?_, ?_, ?_⟩
  · rintro ⟨h1, h2⟩
    have hI : evInv connectEvInit := by simp [evInv, connectEvInit]
    have hrun := evInv_run es connectEvInit hI hv
    have h3 := (hrun.1 h1).2.2
    rw [h2] at h3
    cases h3
  · intro s
    exact ⟨evStep_timer_false s CEvent.connConnected, evStep_timer_false s CEvent.connFailed⟩
  · intro e es2 heq
    subst heq
    simp only [evValid, Bool.and_eq_true] at hv
    exact timerFire_not_in_valid_inactive es2 (evStep connectEvInit e)
      (evStep_timer_false connectEvInit e) hv.2

/-- Witness for connect_timer_never_fires_late on the schedule where
the transport connects and then init completes before any timeout. -/
theorem connect_timer_never_fires_late_witness :
    ¬((evRun connectEvInit [CEvent.connConnected, CEvent.initDone]).finByTimer = true ∧
      (evRun connectEvInit [CEvent.connConnected, CEvent.initDone]).finByInit = true) ∧
    CEvent.timerFire ∉ [CEvent.initDone] :=
  ⟨(connect_timer_never_fires_late [CEvent.connConnected, CEvent.initDone] (by decide)).1,
   (connect_timer_never_fires_late [CEvent.connConnected, CEvent.initDone] (by decide)).2.2
     CEvent.connConnected [CEvent.initDone] rfl⟩

/-- The construction loop succeeds exactly when, relative to the names
and connection identities already installed, every remaining device
has a legal non-colliding name and a fresh connection, with no
repetitions among the remaining devices themselves. -/
theorem buildLoop_ok_iff (reserved : List String) (devs : List DevSpec) :
    ∀ names conns,
      exceptOk (buildLoop reserved devs names conns) = true ↔
      ((∀ d ∈ devs, ¬ d.name.startsWith "_" ∧ d.name ∉ reserved ∧
          d.name ∉ names ∧ d.connId ∉ conns) ∧
        (devs.map DevSpec.name).Nodup ∧ (devs.map DevSpec.connId).Nodup) := by
  induction devs with
  | nil => intro names conns; simp [buildLoop, exceptOk]
  | cons d rest ih =>
      intro names conns
      by_cases h1 : d.name.startsWith "_"
      · simp [buildLoop, h1, exceptOk]
      · by_cases h2 : d.name ∈ reserved ∨ d.name ∈ names
        · simp only [buildLoop, if_neg h1, if_pos h2, exceptOk, Bool.false_eq_true,
            false_iff]
          rintro ⟨hall, -, -⟩
          have hd := hall d (List.mem_cons_self d rest)
          rcases h2 with h2 | h2
          · exact hd.2.1 h2
          · exact hd.2.2.1 h2
        · by_cases h3 : d.connId ∈ conns
          · simp only [buildLoop, if_neg h1, if_neg h2, if_pos h3, exceptOk,
              Bool.false_eq_true, false_iff]
            rintro ⟨hall, -, -⟩
            exact (hall d (List.mem_cons_self d rest)).2.2.2 h3
          · push_neg at h2
            simp only [buildLoop, if_neg h1, if_neg (by push_neg; exact h2 :
              ¬(d.name ∈ reserved ∨ d.name ∈ names)), if_neg h3]
            rw [ih (names ++ [d.name]) (conns ++ [d.connId])]
            constructor
            · rintro ⟨hall, hn, hc⟩
              refine ⟨?_, ?_, ?_⟩
              · intro d2 hd2
                rcases List.mem_cons.mp hd2 with rfl | hd2
                · exact ⟨h1, h2.1, h2.2, h3⟩
                · have ht := hall d2 hd2
                  exact ⟨ht.1, ht.2.1,
                    fun hx => ht.2.2.1 (List.mem_append.mpr (Or.inl hx)),
                    fun hx => ht.2.2.2 (List.mem_append.mpr (Or.inl hx))⟩
              · rw [List.map_cons, List.nodup_cons]
                refine ⟨fun hmem => ?_, hn⟩
                rcases List.mem_map.mp hmem with ⟨d2, hd2, hname⟩
                exact (hall d2 hd2).2.2.1
                  (List.mem_append.mpr (Or.inr (by simp [hname])))
              · rw [List.map_cons, List.nodup_cons]
                refine ⟨fun hmem => ?_, hc⟩
                rcases List.mem_map.mp hmem with ⟨d2, hd2, hid⟩
                exact (hall d2 hd2).2.2.2
                  (List.mem_append.mpr (Or.inr (by simp [hid])))
            · rintro ⟨hall, hn, hc⟩
              rw [List.map_cons, List.nodup_cons] at hn hc
              refine ⟨?_, hn.2, hc.2⟩
              intro d2 hd2
              have ht := hall d2 (List.mem_cons_of_mem d hd2)
              refine ⟨ht.1, ht.2.1, ?_, ?_⟩
              · intro hx
                rcases List.mem_append.mp hx with hx | hx
                · exact ht.2.2.1 hx
                · have he : d2.name = d.name := by simpa using hx
                  exact hn.1 (List.mem_map.mpr ⟨d2, hd2, he⟩)
              · intro hx
                rcases List.mem_append.mp hx with hx | hx
                · exact ht.2.2.2 hx
                · have he : d2.connId = d.connId := by simpa using hx
                  exact hc.1 (List.mem_map.mpr ⟨d2, hd2, he⟩)

/-- C8: DeviceCollection construction succeeds exactly when no device
name starts with the reserved underscore, no name collides with a
registry-reserved accessor name, no two devices share a name, and no
two devices share one Connection identity; any violation is a
synchronous fatal error. -/
theorem deviceCollection_build_ok_iff (reserved : List String) (devs : List DevSpec) :
    exceptOk (DeviceCollection.build reserved devs) = true ↔ collectionOk reserved devs := by
  rw [DeviceCollection.build, buildLoop_ok_iff reserved devs [] []]
  simp only [List.not_mem_nil, not_false_iff, and_true, collectionOk]

end TwistedActor
